import Mathlib

/-
Verification of the wja desktop-automation facade.

Shallow embedding of the three script variants in src/wja_desktop_automation:
base_class.py, 1.py and 3.py.  Each variant defines a BaseClass facade over a
GUI-automation driver.  The embedded parts are the element readiness wait
(single blocking wait in base_class.py and 1.py, a 0.5 s polling loop in
3.py), the try/except logging discipline of every facade method, the
set_checkbox toggle logic of 3.py, the idempotent logger initialization, the
configuration lookups, and the key-send semantics of enter_text.

Time is modelled in ticks of 0.5 seconds, so the 1 second sub-wait of the
polling variant is 2 ticks, its 0.5 second sleep is 1 tick, and a timeout of
n seconds is 2 * n ticks.
-/

/-- ElemState is the observable state of one UI control at one instant: the
four readiness flags the driver can report. -/
structure ElemState where
  existing : Bool
  enabled : Bool
  visible : Bool
  ready : Bool
deriving DecidableEq

/-- readyAll4 is the flag check of the blocking variants, source string
"exists enabled visible ready" in base_class.py line 53 and 1.py line 59. -/
def readyAll4 (s : ElemState) : Bool :=
  s.existing && s.enabled && s.visible && s.ready

/-- ready3 is the flag check of the polling variant, source string
"exists ready visible" in 3.py line 59: the enabled flag is absent. -/
def ready3 (s : ElemState) : Bool :=
  s.existing && s.ready && s.visible

/-- firstHit p t0 d is the first time in the window from t0 to t0 + d at
which p holds, scanning tick by tick as the driver wait does; none means the
window elapsed with p never observed true. -/
def firstHit (p : Nat → Bool) (t0 : Nat) : Nat → Option Nat
  | 0 => if p t0 then some t0 else none
  | d + 1 => if p t0 then some t0 else firstHit p (t0 + 1) d

/-- WaitResult is the outcome of a wait_for_element call: the control is
returned at some tick, or a pywinauto TimeoutError is raised at some tick. -/
inductive WaitResult where
  | ok (t : Nat)
  | timeout (t : Nat)
deriving DecidableEq

/-- WaitResult.isOk tells whether the call returned a control. -/
def WaitResult.isOk : WaitResult → Bool
  | WaitResult.ok _ => true
  | WaitResult.timeout _ => false

/-- wait_for_element is the blocking variant shared by base_class.py lines
49 to 58 and 1.py lines 54 to 69: one driver wait on all four flags with the
configured timeout; on timeout a TimeoutError is raised at t0 + tout. -/
def wait_for_element (env : Nat → ElemState) (t0 tout : Nat) : WaitResult :=
  match firstHit (fun t => readyAll4 (env t)) t0 tout with
  | some t => WaitResult.ok t
  | none => WaitResult.timeout (t0 + tout)

/-- pollLoop is the while loop of 3.py lines 56 to 64: while the current
tick is before endTime, run a 1 second (2 tick) sub-wait on the three flags;
on success return the control, on failure sleep 0.5 s (1 tick) and retry, so
each failed iteration advances 3 ticks.  When the loop guard fails a
TimeoutError is raised at the current tick.  The fuel argument only bounds
the recursion; wait_for_element_poll supplies enough fuel that it is never
exhausted before the loop guard fails. -/
def pollLoop (env : Nat → ElemState) (endTime : Nat) : Nat → Nat → WaitResult
  | t, 0 => WaitResult.timeout t
  | t, fuel + 1 =>
    if t < endTime then
      match firstHit (fun u => ready3 (env u)) t 2 with
      | some u => WaitResult.ok u
      | none => pollLoop env endTime (t + 3) fuel
    else WaitResult.timeout t

/-- wait_for_element_poll is the polling variant of 3.py lines 53 to 64:
end_time is the invocation tick plus the timeout, and the loop polls with 1
second sub-waits and 0.5 second sleeps. -/
def wait_for_element_poll (env : Nat → ElemState) (t0 tout : Nat) : WaitResult :=
  pollLoop env (t0 + tout) t0 (tout + 1)

/-- envAllTrue is a control that reports all four flags at every tick. -/
def envAllTrue : Nat → ElemState := fun _ => ⟨true, true, true, true⟩

/-- envEnabledFalse is a control that always reports existing, visible and
ready but never enabled. -/
def envEnabledFalse : Nat → ElemState := fun _ => ⟨true, false, true, true⟩

/-- envNever is a control that never reports any readiness flag. -/
def envNever : Nat → ElemState := fun _ => ⟨false, false, false, false⟩

/-- JVal is a JSON scalar as read from config.json: path and backend values
are strings, timeout and retry values are numbers. -/
inductive JVal where
  | str (s : String)
  | num (n : Nat)
deriving DecidableEq

/-- Config is the loaded config.json document: an attribute mapping from
key to value, first match wins, as in a Python dict built from JSON. -/
abbrev Config := List (String × JVal)

/-- getKey c k is the lookup c.get(k) without a default: the value of the
first entry with key k, or none when the key is absent. -/
def getKey (c : Config) (k : String) : Option JVal :=
  match c with
  | [] => none
  | (k', v) :: rest => if k' = k then some v else getKey rest k

/-- PyErr classifies the exceptions the configuration paths can raise. -/
inductive PyErr where
  | keyError (k : String)
  | typeError
deriving DecidableEq

/-- configIndex c k is the subscript access self.config of the source with
key k, which raises KeyError when the key is absent. -/
def configIndex (c : Config) (k : String) : Except PyErr JVal :=
  match getKey c k with
  | some v => Except.ok v
  | none => Except.error (PyErr.keyError k)

/-- asNat coerces a config value into the number of seconds a timeout needs;
a string value would make the arithmetic on it raise TypeError. -/
def asNat (v : JVal) : Except PyErr Nat :=
  match v with
  | JVal.num n => Except.ok n
  | JVal.str _ => Except.error PyErr.typeError

/-- wait_for_element_cfg is the blocking wait of base_class.py line 53 with
its configuration read: the timeout comes from the subscript access
config of key default_timeout, so a missing key raises KeyError before
any waiting happens.  Seconds become 2 * n ticks. -/
def wait_for_element_cfg (c : Config) (env : Nat → ElemState) (t0 : Nat) :
    Except PyErr WaitResult :=
  match configIndex c "default_timeout" with
  | Except.error e => Except.error e
  | Except.ok v =>
    match asNat v with
    | Except.error e => Except.error e
    | Except.ok tsec => Except.ok (wait_for_element env t0 (2 * tsec))

/-- poll_timeout_cfg is the timeout read of 3.py line 54, the call
config.get of key default_timeout with default 20: a missing key yields the
number 20 instead of an error. -/
def poll_timeout_cfg (c : Config) : JVal :=
  (getKey c "default_timeout").getD (JVal.num 20)

/-- wait_for_element_poll_cfg is the polling wait of 3.py lines 53 to 64
with its configuration read, which substitutes 20 for a missing
default_timeout key. -/
def wait_for_element_poll_cfg (c : Config) (env : Nat → ElemState) (t0 : Nat) :
    Except PyErr WaitResult :=
  match asNat (poll_timeout_cfg c) with
  | Except.error e => Except.error e
  | Except.ok tsec => Except.ok (wait_for_element_poll env t0 (2 * tsec))

/-- init_backend_cfg is the read of config of key backend in
BaseClass.__init__ of every variant, a subscript access. -/
def init_backend_cfg (c : Config) : Except PyErr JVal :=
  configIndex c "backend"

/-- launch_path_cfg is the read of config of key application_path in
launch_application of every variant, a subscript access. -/
def launch_path_cfg (c : Config) : Except PyErr JVal :=
  configIndex c "application_path"

/-- cfgA is a configuration document with a timeout and retry_count 3. -/
def cfgA : Config := [("default_timeout", JVal.num 20), ("retry_count", JVal.num 3)]

/-- cfgB is cfgA with only the retry_count value changed, to 7. -/
def cfgB : Config := [("default_timeout", JVal.num 20), ("retry_count", JVal.num 7)]

/-- LogLevel is the level of one logger call in the facade. -/
inductive LogLevel where
  | info
  | warning
  | error
deriving DecidableEq

/-- isError recognizes the error level. -/
def isError : LogLevel → Bool
  | LogLevel.error => true
  | _ => false

/-- isWarning recognizes the warning level. -/
def isWarning : LogLevel → Bool
  | LogLevel.warning => true
  | _ => false

/-- hasError tells whether a log contains an error level entry. -/
def hasError (ls : List LogLevel) : Bool := ls.any isError

/-- hasWarning tells whether a log contains a warning level entry. -/
def hasWarning (ls : List LogLevel) : Bool := ls.any isWarning

/-- Step is one statement of a facade method body: a driver call that may
raise, or a logger call at some level. -/
inductive Step where
  | drv (fails : Bool)
  | log (lvl : LogLevel)

/-- runBody executes a method body statement by statement: it returns the
log entries emitted and whether an exception escaped the body, cutting the
body short at the first failing driver call as Python does. -/
def runBody : List Step → List LogLevel × Bool
  | [] => ([], false)
  | Step.log l :: rest =>
    let r := runBody rest
    (l :: r.1, r.2)
  | Step.drv f :: rest => if f then ([], true) else runBody rest

/-- OpTrace is the observable behavior of one facade call: the log entries
it emits and whether it raises to its caller. -/
structure OpTrace where
  logs : List LogLevel
  raises : Bool
deriving DecidableEq

/-- tryExcept is the uniform try/except of every facade method: run the
body; when an exception escapes it, log once at the handler level and raise
again exactly when the handler body says raise. -/
def tryExcept (body : List Step) (handlerLvl : LogLevel) (reraise : Bool) : OpTrace :=
  let r := runBody body
  if r.2 then ⟨r.1 ++ [handlerLvl], reraise⟩ else ⟨r.1, false⟩

/-- opSteps replays a nested facade call inside an enclosing body: its log
entries happen, then its exception, when it raised, propagates. -/
def opSteps (t : OpTrace) : List Step :=
  t.logs.map Step.log ++ (if t.raises then [Step.drv true] else [])

/-- wait_for_element_op is the trace of base_class.py wait_for_element lines
49 to 58: info log, driver wait that may fail, info log; the handler logs
error and raises again. -/
def wait_for_element_op (wf : Bool) : OpTrace :=
  tryExcept [Step.log LogLevel.info, Step.drv wf, Step.log LogLevel.info] LogLevel.error true

/-- click_element_op is base_class.py lines 60 to 68: nested wait, then
set_focus and click_input driver calls, then an info log; the handler logs
error and raises again. -/
def click_element_op (wf ff cf : Bool) : OpTrace :=
  tryExcept (opSteps (wait_for_element_op wf) ++
    [Step.drv ff, Step.drv cf, Step.log LogLevel.info]) LogLevel.error true

/-- enter_text_op is base_class.py lines 70 to 78, same shape as click. -/
def enter_text_op (wf ff tf : Bool) : OpTrace :=
  tryExcept (opSteps (wait_for_element_op wf) ++
    [Step.drv ff, Step.drv tf, Step.log LogLevel.info]) LogLevel.error true

/-- right_click_element_op is base_class.py lines 80 to 88. -/
def right_click_element_op (wf ff rf : Bool) : OpTrace :=
  tryExcept (opSteps (wait_for_element_op wf) ++
    [Step.drv ff, Step.drv rf, Step.log LogLevel.info]) LogLevel.error true

/-- select_context_menu_op is base_class.py lines 90 to 99: nested wait,
click_input, info log. -/
def select_context_menu_op (wf cf : Bool) : OpTrace :=
  tryExcept (opSteps (wait_for_element_op wf) ++
    [Step.drv cf, Step.log LogLevel.info]) LogLevel.error true

/-- wizard_next_op is base_class.py lines 101 to 108. -/
def wizard_next_op (wf cf : Bool) : OpTrace :=
  tryExcept (opSteps (wait_for_element_op wf) ++
    [Step.drv cf, Step.log LogLevel.info]) LogLevel.error true

/-- wizard_finish_op is base_class.py lines 110 to 117. -/
def wizard_finish_op (wf cf : Bool) : OpTrace :=
  tryExcept (opSteps (wait_for_element_op wf) ++
    [Step.drv cf, Step.log LogLevel.info]) LogLevel.error true

/-- launch_application_op is base_class.py lines 27 to 37: info log, start,
wait visible, set_focus, info log. -/
def launch_application_op (sf wf ff : Bool) : OpTrace :=
  tryExcept [Step.log LogLevel.info, Step.drv sf, Step.drv wf, Step.drv ff,
    Step.log LogLevel.info] LogLevel.error true

/-- connect_to_main_window_op is base_class.py lines 39 to 47: wait visible,
set_focus, info log. -/
def connect_to_main_window_op (wf ff : Bool) : OpTrace :=
  tryExcept [Step.drv wf, Step.drv ff, Step.log LogLevel.info] LogLevel.error true

/-- bring_window_to_front_op is base_class.py lines 119 to 124: set_focus
and an info log in the try, and a handler that logs at warning level and
does not raise again. -/
def bring_window_to_front_op (ff : Bool) : OpTrace :=
  tryExcept [Step.drv ff, Step.log LogLevel.info] LogLevel.warning false

/-- wait_for_element_poll_op is the trace of 3.py wait_for_element lines 53
to 64: on success nothing is logged; when the element never becomes ready
the loop logs error and raises TimeoutError. -/
def wait_for_element_poll_op (wf : Bool) : OpTrace :=
  if wf then ⟨[LogLevel.error], true⟩ else ⟨[], false⟩

/-- expand_tree_item_op is 1.py lines 97 to 107: nested wait, is_expanded
and expand driver calls, info log. -/
def expand_tree_item_op (wf ef xf : Bool) : OpTrace :=
  tryExcept (opSteps (wait_for_element_op wf) ++
    [Step.drv ef, Step.drv xf, Step.log LogLevel.info]) LogLevel.error true

/-- set_checkbox_op is the trace of 3.py set_checkbox lines 87 to 99: nested
polling wait, set_focus, get_toggle_state, possible toggle, info log. -/
def set_checkbox_op (wf ff gf tf : Bool) : OpTrace :=
  tryExcept (opSteps (wait_for_element_poll_op wf) ++
    [Step.drv ff, Step.drv gf, Step.drv tf, Step.log LogLevel.info]) LogLevel.error true

/-- select_combobox_op is 3.py lines 101 to 109: nested polling wait,
set_focus, select, info log. -/
def select_combobox_op (wf ff sf : Bool) : OpTrace :=
  tryExcept (opSteps (wait_for_element_poll_op wf) ++
    [Step.drv ff, Step.drv sf, Step.log LogLevel.info]) LogLevel.error true

/-- set_checkbox is the toggle logic of 3.py lines 87 to 99 once the element
is resolved: current is get_toggle_state, toggle is the external driver
toggle whose result state the driver owns; the method toggles exactly when
check is true and the state is 0, or check is false and the state is 1.  The
result is the final toggle state and the number of toggle calls made. -/
def set_checkbox (toggle : Nat → Nat) (check : Bool) (current : Nat) : Nat × Nat :=
  if (check && (current == 0)) || (!check && (current == 1)) then
    (toggle current, 1)
  else
    (current, 0)

/-- toggleBinary is the driver toggle of a two-state checkbox: state 0 and
state 1 swap. -/
def toggleBinary : Nat → Nat := fun s => 1 - s

/-- Handler is one logging handler; the facade attaches a StreamHandler
carrying this formatter string. -/
structure Handler where
  fmt : String
deriving DecidableEq

/-- defaultFormatter is the format string of every variant. -/
def defaultFormatter : String := "%(asctime)s %(levelname)s %(message)s"

/-- LoggerState is the process-wide logger named WJA_Automation: its handler
list and its configured level. -/
structure LoggerState where
  handlers : List Handler
  level : Option Nat
deriving DecidableEq

/-- get_logger is BaseClass._get_logger of base_class.py lines 17 to 25 and
1.py lines 18 to 26: when the logger has no handlers, attach one stream
handler with the formatter; always set the level to INFO, numeric value 20
in the logging module. -/
def get_logger (st : LoggerState) : LoggerState :=
  let st1 :=
    if st.handlers.isEmpty then
      { st with handlers := st.handlers ++ [⟨defaultFormatter⟩] }
    else st
  { st1 with level := some 20 }

/-- construct_wrappers n replays n constructions of the facade wrapper in
one process; each BaseClass.__init__ calls _get_logger once on the shared
logger state. -/
def construct_wrappers : Nat → LoggerState → LoggerState
  | 0, st => st
  | n + 1, st => construct_wrappers n (get_logger st)

/-- freshLogger is the logger state of a fresh process: no handlers and no
level configured yet. -/
def freshLogger : LoggerState := ⟨[], none⟩

/-- Key is one keystroke of a type_keys call: the select-all chord, the
backspace key, or a printable character. -/
inductive Key where
  | selectAll
  | backspace
  | ch (c : Char)

/-- EditField is an edit control: its text and whether all of it is selected. -/
structure EditField where
  content : List Char
  allSelected : Bool
deriving DecidableEq

/-- sendKey applies one keystroke to a field: select-all selects everything;
backspace deletes the selection, or the last character when nothing is
selected; a character replaces the selection, or appends. -/
def sendKey (f : EditField) (k : Key) : EditField :=
  match k with
  | Key.selectAll => { f with allSelected := true }
  | Key.backspace =>
    if f.allSelected then ⟨[], false⟩ else ⟨f.content.dropLast, false⟩
  | Key.ch c =>
    if f.allSelected then ⟨[c], false⟩ else ⟨f.content ++ [c], false⟩

/-- sendKeySeq applies a whole keystroke sequence left to right. -/
def sendKeySeq (f : EditField) (ks : List Key) : EditField := ks.foldl sendKey f

/-- clearKeys is the keystroke sequence of the source string sent before
typing in 1.py line 89 and 3.py line 80: select-all then backspace. -/
def clearKeys : List Key := [Key.selectAll, Key.backspace]

/-- typeText is the keystroke sequence that types the given characters. -/
def typeText (text : List Char) : List Key := text.map Key.ch

/-- enter_text_v1 is 1.py lines 83 to 95: when clear is true, which is its
default, send select-all plus backspace first, then type the text. -/
def enter_text_v1 (f : EditField) (text : List Char) (clear : Bool) : EditField :=
  sendKeySeq (if clear then sendKeySeq f clearKeys else f) (typeText text)

/-- enter_text_v3 is 3.py lines 76 to 85: always send select-all plus
backspace, then type the text. -/
def enter_text_v3 (f : EditField) (text : List Char) : EditField :=
  sendKeySeq (sendKeySeq f clearKeys) (typeText text)

/-- enter_text_base is base_class.py lines 70 to 78: type the text with no
clearing keystrokes at all. -/
def enter_text_base (f : EditField) (text : List Char) : EditField :=
  sendKeySeq f (typeText text)

/-- fieldZ is a sample field already holding one character, unselected. -/
def fieldZ : EditField := ⟨['z'], false⟩

/-- abText is a sample two-character text to type. -/
def abText : List Char := ['a', 'b']

/-- firstHit only answers times at which the polled predicate holds. -/
theorem firstHit_some (p : Nat → Bool) :
    ∀ d t0 u, firstHit p t0 d = some u → p u = true := by
  intro d
  induction d with
  | zero =>
    intro t0 u h
    by_cases hp : p t0 = true
    · simp [firstHit, hp] at h
      exact h ▸ hp
    · simp [firstHit, hp] at h
  | succ n ih =>
    intro t0 u h
    by_cases hp : p t0 = true
    · simp [firstHit, hp] at h
      exact h ▸ hp
    · simp [firstHit, hp] at h
      exact ih _ _ h

/-- firstHit finds nothing when the predicate never holds. -/
theorem firstHit_none_of (p : Nat → Bool) (h : ∀ u, p u = false) :
    ∀ d t0, firstHit p t0 d = none := by
  intro d
  induction d with
  | zero => intro t0; simp [firstHit, h t0]
  | succ n ih => intro t0; simp [firstHit, h t0, ih]

/-- firstHit answers the start of the window when the predicate already
holds there. -/
theorem firstHit_self (p : Nat → Bool) (t0 : Nat) (h : p t0 = true) :
    ∀ d, firstHit p t0 d = some t0 := by
  intro d
  cases d <;> simp [firstHit, h]

/-- pollLoop only returns a control at a time where the three polled flags
hold. -/
theorem pollLoop_ok (env : Nat → ElemState) (endTime : Nat) :
    ∀ fuel t u, pollLoop env endTime t fuel = WaitResult.ok u →
      ready3 (env u) = true := by
  intro fuel
  induction fuel with
  | zero =>
    intro t u h
    simp [pollLoop] at h
  | succ n ih =>
    intro t u h
    by_cases hlt : t < endTime
    · rw [pollLoop, if_pos hlt] at h
      cases hfh : firstHit (fun v => ready3 (env v)) t 2 with
      | some w =>
        rw [hfh] at h
        cases h
        exact firstHit_some _ _ _ _ hfh
      | none =>
        rw [hfh] at h
        exact ih _ _ h
    · rw [pollLoop, if_neg hlt] at h
      cases h

/-- pollLoop times out when the three polled flags never hold, and it does
so no later than two ticks past the deadline (or at once when called past
the deadline). -/
theorem pollLoop_never (env : Nat → ElemState) (endTime : Nat)
    (h : ∀ u, ready3 (env u) = false) :
    ∀ fuel t, ∃ te, pollLoop env endTime t fuel = WaitResult.timeout te ∧
      te ≤ max t (endTime + 2) := by
  intro fuel
  induction fuel with
  | zero =>
    intro t
    exact ⟨t, rfl, Nat.le_max_left _ _⟩
  | succ n ih =>
    intro t
    by_cases hlt : t < endTime
    · have hfh : firstHit (fun u => ready3 (env u)) t 2 = none :=
        firstHit_none_of _ h _ _
      obtain ⟨te, he, hb⟩ := ih (t + 3)
      refine ⟨te, ?_, ?_⟩
      · rw [pollLoop, if_pos hlt, hfh]
        exact he
      · have h3 : t + 3 ≤ endTime + 2 := by omega
        calc te ≤ max (t + 3) (endTime + 2) := hb
          _ = endTime + 2 := Nat.max_eq_right h3
          _ ≤ max t (endTime + 2) := Nat.le_max_right _ _
    · exact ⟨t, by rw [pollLoop, if_neg hlt], Nat.le_max_left _ _⟩

/-- When the enabled flag holds, the four-flag check and the three-flag
check agree. -/
theorem readyAll4_eq_ready3_of_enabled (s : ElemState) (he : s.enabled = true) :
    readyAll4 s = ready3 s := by
  rcases s with ⟨e, en, v, r⟩
  cases e <;> cases en <;> cases v <;> cases r <;>
    simp_all [readyAll4, ready3]

/-- When the three-flag check fails, the four-flag check fails as well. -/
theorem readyAll4_false_of_ready3_false (s : ElemState) (h : ready3 s = false) :
    readyAll4 s = false := by
  rcases s with ⟨e, en, v, r⟩
  cases e <;> cases en <;> cases v <;> cases r <;>
    simp_all [readyAll4, ready3]

/-- A repeated _get_logger call leaves a nonempty handler list unchanged. -/
theorem get_logger_handlers_of_nonempty (st : LoggerState)
    (h : st.handlers ≠ []) : (get_logger st).handlers = st.handlers := by
  have hne : st.handlers.isEmpty = false := by
    cases hs : st.handlers with
    | nil => exact absurd hs h
    | cons a l => rfl
  simp [get_logger, hne]

/-- Once the logger holds exactly one handler, any number of further wrapper
constructions keeps exactly that handler list. -/
theorem construct_wrappers_preserves (hs : List Handler) (hne : hs ≠ []) :
    ∀ n st, st.handlers = hs → (construct_wrappers n st).handlers = hs := by
  intro n
  induction n with
  | zero => intro st h; exact h
  | succ m ih =>
    intro st h
    have h1 : (get_logger st).handlers = hs := by
      rw [get_logger_handlers_of_nonempty st (h ▸ hne)]
      exact h
    exact ih _ h1

/-- Typing plain characters into an unselected field appends them. -/
theorem sendKeySeq_typeText (cs : List Char) :
    ∀ f : EditField, f.allSelected = false →
      sendKeySeq f (typeText cs) = ⟨f.content ++ cs, false⟩ := by
  induction cs with
  | nil =>
    intro f h
    rcases f with ⟨c, sel⟩
    simp at h
    subst h
    simp [sendKeySeq, typeText]
  | cons c cs ih =>
    intro f h
    rcases f with ⟨co, sel⟩
    simp at h
    subst h
    have step : sendKey ⟨co, false⟩ (Key.ch c) = ⟨co ++ [c], false⟩ := by
      simp [sendKey]
    calc sendKeySeq ⟨co, false⟩ (typeText (c :: cs))
        = sendKeySeq ⟨co ++ [c], false⟩ (typeText cs) := by
          simp [sendKeySeq, typeText, step]
      _ = ⟨(co ++ [c]) ++ cs, false⟩ := ih _ rfl
      _ = ⟨co ++ (c :: cs), false⟩ := by simp

/-- The select-all plus backspace sequence empties any field. -/
theorem sendKeySeq_clearKeys (f : EditField) :
    sendKeySeq f clearKeys = ⟨[], false⟩ := by
  simp [sendKeySeq, clearKeys, sendKey]

/-- C1, counterexample: the polling variant of wait_for_element returns a
control that never reports the enabled flag, so it does not hold in every
variant that a control is returned only after all four readiness flags hold
simultaneously. -/
theorem C1_counterexample :
    wait_for_element_poll envEnabledFalse 0 4 = WaitResult.ok 0 ∧
    readyAll4 (envEnabledFalse 0) = false := by
  exact ⟨by decide, by decide⟩

/-- C1, amended: the blocking variants of wait_for_element in base_class.py
and 1.py return a control only at a time where the control simultaneously
reports existing, enabled, visible and ready; the polling variant of 3.py
returns a control only at a time where the control simultaneously reports
existing, ready and visible, without requiring enabled. -/
theorem C1_wait_returns_ready (env : Nat → ElemState) (t0 tout t : Nat) :
    (wait_for_element env t0 tout = WaitResult.ok t → readyAll4 (env t) = true) ∧
    (wait_for_element_poll env t0 tout = WaitResult.ok t → ready3 (env t) = true) := by
  constructor
  · intro h
    unfold wait_for_element at h
    cases hfh : firstHit (fun u => readyAll4 (env u)) t0 tout with
    | some w =>
      rw [hfh] at h
      cases h
      exact firstHit_some _ _ _ _ hfh
    | none =>
      rw [hfh] at h
      cases h
  · intro h
    exact pollLoop_ok env (t0 + tout) (tout + 1) t0 t h

/-- C1, witness: on a control reporting every flag from tick 0, both
variants return the control at tick 0 and the respective flag checks hold
there. -/
theorem C1_witness :
    readyAll4 (envAllTrue 0) = true ∧ ready3 (envAllTrue 0) = true :=
  ⟨(C1_wait_returns_ready envAllTrue 0 2 0).1 (by decide),
   (C1_wait_returns_ready envAllTrue 0 2 0).2 (by decide)⟩

/-- C2, counterexample: on a control that always reports existing, visible
and ready but never enabled, the polling variant returns a control while the
single blocking wait raises a timeout, so the two variants are not
behaviorally equivalent. -/
theorem C2_counterexample :
    (wait_for_element_poll envEnabledFalse 0 4).isOk = true ∧
    (wait_for_element envEnabledFalse 0 4).isOk = false := by
  exact ⟨by decide, by decide⟩

/-- C2, amended: the polling variant agrees with the single blocking wait
on success versus timeout only under extra assumptions the claim does not
state: for a control whose state is constant over time and always reports
enabled, and a positive timeout, both variants return a control exactly when
the flags hold, and both raise a timeout-class error otherwise. -/
theorem C2_poll_blocking_agree (env : Nat → ElemState) (t0 tout : Nat)
    (hconst : ∀ t, env t = env 0) (hen : ∀ t, (env t).enabled = true)
    (hpos : 0 < tout) :
    (wait_for_element_poll env t0 tout).isOk = (wait_for_element env t0 tout).isOk := by
  by_cases hr : ready3 (env 0) = true
  · have hr4 : readyAll4 (env t0) = true := by
      rw [hconst t0, readyAll4_eq_ready3_of_enabled (env 0) (hen 0)]
      exact hr
    have hr3 : ready3 (env t0) = true := by rw [hconst t0]; exact hr
    have hb : wait_for_element env t0 tout = WaitResult.ok t0 := by
      unfold wait_for_element
      rw [firstHit_self _ _ hr4]
    have hlt : t0 < t0 + tout := by omega
    have hp : wait_for_element_poll env t0 tout = WaitResult.ok t0 := by
      unfold wait_for_element_poll
      rw [pollLoop, if_pos hlt, firstHit_self _ _ hr3]
    rw [hb, hp]
  · have hall : ∀ u, ready3 (env u) = false := by
      intro u
      rw [hconst u]
      exact Bool.not_eq_true (ready3 (env 0)) ▸ hr
    have hall4 : ∀ u, readyAll4 (env u) = false := fun u =>
      readyAll4_false_of_ready3_false _ (hall u)
    have hb : wait_for_element env t0 tout = WaitResult.timeout (t0 + tout) := by
      unfold wait_for_element
      rw [firstHit_none_of _ hall4]
    obtain ⟨te, he, _⟩ := pollLoop_never env (t0 + tout) hall (tout + 1) t0
    unfold wait_for_element_poll
    rw [hb, he]
    rfl

/-- C2, witness: on a constant control reporting every flag, with timeout 2
ticks, the two variants agree. -/
theorem C2_witness :
    (wait_for_element_poll envAllTrue 0 2).isOk = (wait_for_element envAllTrue 0 2).isOk :=
  C2_poll_blocking_agree envAllTrue 0 2 (fun _ => rfl) (fun _ => rfl) (by decide)

/-- C3, confirmed: for a control that never reports ready (under either flag
check), the blocking wait raises a timeout-class error exactly at the
configured timeout, and the polling variant raises a timeout-class error no
later than two ticks, that is one second, past the configured timeout. -/
theorem C3_timeout_bound (env : Nat → ElemState) (t0 tout : Nat)
    (h : ∀ u, ready3 (env u) = false) :
    wait_for_element env t0 tout = WaitResult.timeout (t0 + tout) ∧
    ∃ te, wait_for_element_poll env t0 tout = WaitResult.timeout te ∧
      te ≤ t0 + tout + 2 := by
  constructor
  · have hall4 : ∀ u, readyAll4 (env u) = false := fun u =>
      readyAll4_false_of_ready3_false _ (h u)
    unfold wait_for_element
    rw [firstHit_none_of _ hall4]
  · obtain ⟨te, he, hb⟩ := pollLoop_never env (t0 + tout) h (tout + 1) t0
    refine ⟨te, he, ?_⟩
    have hm : max t0 (t0 + tout + 2) = t0 + tout + 2 := Nat.max_eq_right (by omega)
    rw [hm] at hb
    exact hb

/-- C3, witness: on a control that never reports any flag, with invocation
tick 0 and timeout 4 ticks, the blocking wait times out at tick 4 and the
polling wait times out by tick 6. -/
theorem C3_witness :
    wait_for_element envNever 0 4 = WaitResult.timeout 4 ∧
    ∃ te, wait_for_element_poll envNever 0 4 = WaitResult.timeout te ∧ te ≤ 6 :=
  C3_timeout_bound envNever 0 4 (fun _ => rfl)

/-- C4, counterexample: bring_window_to_front on a failing set_focus logs at
warning level, not error, and suppresses the exception instead of raising it
again, so not every facade operation logs at error level and propagates. -/
theorem C4_counterexample :
    (bring_window_to_front_op true).raises = false ∧
    hasError (bring_window_to_front_op true).logs = false ∧
    (bring_window_to_front_op true).logs = [LogLevel.warning] := by
  exact ⟨by decide, by decide, by decide⟩

/-- C4, amended: every facade operation except bring_window_to_front raises
to its caller exactly when an underlying call failed and logs at error level
exactly in that case; bring_window_to_front never raises, never logs error,
and logs at warning level exactly when its set_focus failed. -/
theorem C4_error_logging (wf ff cf gf : Bool) :
    (wait_for_element_op wf).raises = wf ∧
    hasError (wait_for_element_op wf).logs = wf ∧
    (click_element_op wf ff cf).raises = (wf || ff || cf) ∧
    hasError (click_element_op wf ff cf).logs = (wf || ff || cf) ∧
    (enter_text_op wf ff cf).raises = (wf || ff || cf) ∧
    hasError (enter_text_op wf ff cf).logs = (wf || ff || cf) ∧
    (right_click_element_op wf ff cf).raises = (wf || ff || cf) ∧
    hasError (right_click_element_op wf ff cf).logs = (wf || ff || cf) ∧
    (select_context_menu_op wf cf).raises = (wf || cf) ∧
    hasError (select_context_menu_op wf cf).logs = (wf || cf) ∧
    (wizard_next_op wf cf).raises = (wf || cf) ∧
    hasError (wizard_next_op wf cf).logs = (wf || cf) ∧
    (wizard_finish_op wf cf).raises = (wf || cf) ∧
    hasError (wizard_finish_op wf cf).logs = (wf || cf) ∧
    (launch_application_op wf ff cf).raises = (wf || ff || cf) ∧
    hasError (launch_application_op wf ff cf).logs = (wf || ff || cf) ∧
    (connect_to_main_window_op wf ff).raises = (wf || ff) ∧
    hasError (connect_to_main_window_op wf ff).logs = (wf || ff) ∧
    (expand_tree_item_op wf ff cf).raises = (wf || ff || cf) ∧
    hasError (expand_tree_item_op wf ff cf).logs = (wf || ff || cf) ∧
    (set_checkbox_op wf ff gf cf).raises = (wf || ff || gf || cf) ∧
    hasError (set_checkbox_op wf ff gf cf).logs = (wf || ff || gf || cf) ∧
    (select_combobox_op wf ff cf).raises = (wf || ff || cf) ∧
    hasError (select_combobox_op wf ff cf).logs = (wf || ff || cf) ∧
    (bring_window_to_front_op ff).raises = false ∧
    hasError (bring_window_to_front_op ff).logs = false ∧
    hasWarning (bring_window_to_front_op ff).logs = ff := by
  cases wf <;> cases ff <;> cases cf <;> cases gf <;> decide

/-- C5, counterexample: on a two-state checkbox already in state 1, two
consecutive set_checkbox calls with check true perform zero toggles, not
exactly one. -/
theorem C5_counterexample :
    (set_checkbox toggleBinary true 1).2 +
      (set_checkbox toggleBinary true (set_checkbox toggleBinary true 1).1).2 = 0 := by
  decide

/-- C5, amended: for a two-state checkbox in state 0 or 1, two consecutive
set_checkbox calls with the same desired state perform at most one toggle in
total, exactly one when the initial state differs from the desired state and
none otherwise, and the second call performs no toggle. -/
theorem C5_set_checkbox_idempotent (toggle : Nat → Nat) (check : Bool) (current : Nat)
    (h0 : toggle 0 = 1) (h1 : toggle 1 = 0) (hcur : current = 0 ∨ current = 1) :
    (set_checkbox toggle check (set_checkbox toggle check current).1).2 = 0 ∧
    (set_checkbox toggle check current).2 +
      (set_checkbox toggle check (set_checkbox toggle check current).1).2 ≤ 1 ∧
    ((set_checkbox toggle check current).2 = 1 ↔
      current ≠ (if check then 1 else 0)) := by
  rcases hcur with rfl | rfl <;> cases check <;>
    simp [set_checkbox, h0, h1]

/-- C5, witness: a two-state checkbox starting unchecked, set to checked
twice: the second call does not toggle, the total is at most one toggle, and
one toggle happened since the start state differed from the desired one. -/
theorem C5_witness :
    (set_checkbox toggleBinary true (set_checkbox toggleBinary true 0).1).2 = 0 ∧
    (set_checkbox toggleBinary true 0).2 +
      (set_checkbox toggleBinary true (set_checkbox toggleBinary true 0).1).2 ≤ 1 ∧
    ((set_checkbox toggleBinary true 0).2 = 1 ↔
      (0 : Nat) ≠ (if (true : Bool) then 1 else 0)) :=
  C5_set_checkbox_idempotent toggleBinary true 0 rfl rfl (Or.inl rfl)

/-- C6, confirmed: starting from a fresh process logger with no handlers,
constructing the facade wrapper any positive number of times leaves the
process-wide logger with exactly one handler; repeated _get_logger calls
never add a duplicate. -/
theorem C6_logger_idempotent (st : LoggerState) (n : Nat)
    (h0 : st.handlers = []) (hn : 1 ≤ n) :
    (construct_wrappers n st).handlers.length = 1 := by
  obtain ⟨m, rfl⟩ : ∃ m, n = m + 1 := ⟨n - 1, by omega⟩
  have h1 : (get_logger st).handlers = [⟨defaultFormatter⟩] := by
    simp [get_logger, h0]
  have h2 : construct_wrappers (m + 1) st = construct_wrappers m (get_logger st) := rfl
  rw [h2, construct_wrappers_preserves [⟨defaultFormatter⟩] (by simp) m _ h1]
  rfl

/-- C6, witness: three constructions from a fresh logger leave exactly one
handler. -/
theorem C6_witness : (construct_wrappers 3 freshLogger).handlers.length = 1 :=
  C6_logger_idempotent freshLogger 3 rfl (by decide)

/-- C7, counterexample: with default_timeout absent from the configuration,
the polling wait_for_element of 3.py does not raise a lookup error at first
use but substitutes the default 20 seconds (40 ticks, so on a never-ready
control it times out at tick 42), so it is not true that no operation
substitutes a default value for a missing key. -/
theorem C7_counterexample :
    poll_timeout_cfg [] = JVal.num 20 ∧
    wait_for_element_poll_cfg [] envNever 0 = Except.ok (WaitResult.timeout 42) := by
  exact ⟨rfl, rfl⟩

/-- C7, amended: a missing configuration key causes no failure at load time
and the blocking wait, the constructor backend read and the launch path read
each fail with a KeyError at first use of the missing key; the exception is
the polling variant of 3.py, which substitutes the default 20 for a missing
default_timeout instead of failing. -/
theorem C7_missing_key (c : Config) (env : Nat → ElemState) (t0 : Nat)
    (hdt : getKey c "default_timeout" = none)
    (hbk : getKey c "backend" = none)
    (hap : getKey c "application_path" = none) :
    wait_for_element_cfg c env t0 = Except.error (PyErr.keyError "default_timeout") ∧
    init_backend_cfg c = Except.error (PyErr.keyError "backend") ∧
    launch_path_cfg c = Except.error (PyErr.keyError "application_path") ∧
    poll_timeout_cfg c = JVal.num 20 := by
  refine ⟨?_, ?_, ?_, ?_⟩ <;>
    simp [wait_for_element_cfg, init_backend_cfg, launch_path_cfg,
      poll_timeout_cfg, configIndex, hdt, hbk, hap]

/-- C7, witness: the empty configuration document instantiates the amended
claim. -/
theorem C7_witness :
    wait_for_element_cfg [] envNever 0 = Except.error (PyErr.keyError "default_timeout") ∧
    init_backend_cfg [] = Except.error (PyErr.keyError "backend") ∧
    launch_path_cfg [] = Except.error (PyErr.keyError "application_path") ∧
    poll_timeout_cfg [] = JVal.num 20 :=
  C7_missing_key [] envNever 0 rfl rfl rfl

/-- C8, confirmed: two configurations that agree on every key other than
retry_count give identical behavior to both wait_for_element variants, to
the constructor backend read and to the launch path read: no facade path
consults retry_count. -/
theorem C8_retry_count_unused (c1 c2 : Config) (env : Nat → ElemState) (t0 : Nat)
    (h : ∀ k, k ≠ "retry_count" → getKey c1 k = getKey c2 k) :
    wait_for_element_cfg c1 env t0 = wait_for_element_cfg c2 env t0 ∧
    wait_for_element_poll_cfg c1 env t0 = wait_for_element_poll_cfg c2 env t0 ∧
    init_backend_cfg c1 = init_backend_cfg c2 ∧
    launch_path_cfg c1 = launch_path_cfg c2 := by
  have hdt := h "default_timeout" (by decide)
  have hbk := h "backend" (by decide)
  have hap := h "application_path" (by decide)
  refine ⟨?_, ?_, ?_, ?_⟩ <;>
    simp [wait_for_element_cfg, wait_for_element_poll_cfg, init_backend_cfg,
      launch_path_cfg, configIndex, poll_timeout_cfg, hdt, hbk, hap]

/-- C8, witness: two concrete configurations differing only in retry_count,
3 against 7, give identical facade behavior. -/
theorem C8_witness :
    wait_for_element_cfg cfgA envNever 0 = wait_for_element_cfg cfgB envNever 0 ∧
    wait_for_element_poll_cfg cfgA envNever 0 = wait_for_element_poll_cfg cfgB envNever 0 ∧
    init_backend_cfg cfgA = init_backend_cfg cfgB ∧
    launch_path_cfg cfgA = launch_path_cfg cfgB :=
  C8_retry_count_unused cfgA cfgB envNever 0 (by
    intro k hk
    have hk2 : ¬("retry_count" = k) := fun he => hk he.symm
    simp only [cfgA, cfgB, getKey]
    by_cases h1 : "default_timeout" = k
    · simp [h1]
    · simp [h1, hk2])

/-- C9, confirmed: when the toggle state is neither 0 nor 1, set_checkbox
performs no toggle for either desired state and returns with the state
unchanged. -/
theorem C9_indeterminate_untouched (toggle : Nat → Nat) (check : Bool) (s : Nat)
    (h0 : s ≠ 0) (h1 : s ≠ 1) :
    set_checkbox toggle check s = (s, 0) := by
  have e0 : (s == 0) = false := by simp [h0]
  have e1 : (s == 1) = false := by simp [h1]
  simp [set_checkbox, e0, e1]

/-- C9, witness: the indeterminate state 2 is left alone under both desired
states. -/
theorem C9_witness :
    set_checkbox toggleBinary true 2 = (2, 0) ∧
    set_checkbox toggleBinary false 2 = (2, 0) :=
  ⟨C9_indeterminate_untouched toggleBinary true 2 (by decide) (by decide),
   C9_indeterminate_untouched toggleBinary false 2 (by decide) (by decide)⟩

/-- C10, confirmed: the clearing variants of enter_text, 1.py with its
default clear flag and 3.py unconditionally, leave the field holding exactly
the typed text whatever it held before; the base_class.py variant types
without clearing, and its result differs between different prior contents. -/
theorem C10_enter_text_clearing (f : EditField) (text : List Char) :
    (enter_text_v1 f text true).content = text ∧
    (enter_text_v3 f text).content = text ∧
    (enter_text_base ⟨[], false⟩ text).content ≠
      (enter_text_base ⟨['z'], false⟩ text).content := by
  refine ⟨?_, ?_, ?_⟩
  · show (sendKeySeq (sendKeySeq f clearKeys) (typeText text)).content = text
    rw [sendKeySeq_clearKeys, sendKeySeq_typeText text ⟨[], false⟩ rfl]
    rfl
  · unfold enter_text_v3
    rw [sendKeySeq_clearKeys, sendKeySeq_typeText text ⟨[], false⟩ rfl]
    rfl
  · unfold enter_text_base
    rw [sendKeySeq_typeText text ⟨[], false⟩ rfl,
      sendKeySeq_typeText text ⟨['z'], false⟩ rfl]
    intro hEq
    have := congrArg List.length hEq
    simp at this

/-- C10, witness: typing the sample text into a field holding one character
leaves exactly the sample text under the clearing variants, and the
base_class.py variant distinguishes an empty prior field from a nonempty
one. -/
theorem C10_witness :
    (enter_text_v1 fieldZ abText true).content = abText ∧
    (enter_text_v3 fieldZ abText).content = abText ∧
    (enter_text_base ⟨[], false⟩ abText).content ≠
      (enter_text_base ⟨['z'], false⟩ abText).content :=
  C10_enter_text_clearing fieldZ abText
